import Mathlib

/-!
Verification of the gamercraze script-gallery viewer (src/script.js).

Shallow embedding of the page-load / polling core:

* `Script` models an item of the remote catalog (only the fields the
  logic under verification reads; the purely presentational fields are
  carried along for faithfulness).  JavaScript timestamps are
  date-descending-comparable strings; we model them as `Option Nat`,
  `none` standing for a missing/falsy timestamp, `some t` for a truthy
  one, with `<` mirroring the string comparison on well-formed dates.
* `fetchScripts` models the Catalog Fetcher (script.js lines 23-45):
  the network outcome is made an explicit argument (`FetchOutcome`).
* `pollForNewScripts` models the Incremental Update Detector
  (script.js lines 185-230); the fetched first page is an explicit
  argument, the DOM render calls are dropped, and the reported
  new-item count (the argument of `showNewCount`) is returned.
* `loadPage` models the page loader (script.js lines 151-183).
-/

/-- The `user` sub-object of an item (`script.user`), read by
`applySearchFilter` (`script.user?.username`). -/
structure User where
  username : Option String
  image : Option String
deriving DecidableEq

/-- A catalog item as received from the API.  `none` in an `Option`
field models a missing/falsy JavaScript field. -/
structure Script where
  idStr : Option String
  title : Option String
  description : Option String
  creator : Option String
  user : Option User
  createdAt : Option Nat
  date : Option Nat
  image : Option String
  rawScript : Option String
  language : Option String
deriving DecidableEq

/-- Pagination metadata (`data.info`): `currentPage` and `maxPages`,
both optional. -/
structure Info where
  currentPage : Option Nat
  maxPages : Option Nat
deriving DecidableEq

/-- A Page Result: the value `fetchScripts` resolves with. -/
structure PageResult where
  scripts : List Script
  info : Info
deriving DecidableEq

/-- The empty Page Result `\x7b scripts: [], info: \x7d` returned on
every failure path of `fetchScripts`. -/
def emptyPage : PageResult := ⟨[], ⟨none, none⟩⟩

/-- A parsed JSON object body.  `scripts = none` models a payload with
the `scripts` field missing or nullish (the `!data.scripts` check);
note that `some []` is a present-but-empty array, which is truthy in
JavaScript. -/
structure Payload where
  scripts : Option (List Script)
  info : Info

/-- The body obtained from a completed HTTP response:
`resp.json()` either throws (`invalidJson`) or yields a JSON value —
`parsed none` models a nullish value (the `!data` check),
`parsed (some p)` a JSON object. -/
inductive Body where
  | invalidJson : Body
  | parsed : Option Payload → Body

/-- The outcome of the `fetch` call inside `fetchScripts`:
either the promise rejects (transport error) or a response arrives
with a success flag (`resp.ok`) and a body. -/
inductive FetchOutcome where
  | transportError : FetchOutcome
  | response : Bool → Body → FetchOutcome

/-- `fetchScripts` (script.js lines 23-45): given the network outcome,
produce the Page Result the caller receives.  Every failure path
(rejected fetch, `!resp.ok`, `resp.json()` throwing, nullish payload,
missing `scripts` field) collapses to `emptyPage`; otherwise the
payload is returned as-is.  The function is total: no path throws. -/
def fetchScripts (o : FetchOutcome) : PageResult :=
  match o with
  | .transportError => emptyPage
  | .response ok body =>
    if ok = false then emptyPage
    else
      match body with
      | .invalidJson => emptyPage
      | .parsed none => emptyPage
      | .parsed (some p) =>
        match p.scripts with
        | none => emptyPage
        | some scripts => ⟨scripts, p.info⟩

/-- The effective timestamp of an item:
`script.createdAt || script.date` (script.js line 196). -/
def effTs (s : Script) : Option Nat :=
  match s.createdAt with
  | some t => some t
  | none => s.date

/-- JavaScript `a || b` on two optional timestamps (used at
script.js lines 174 and 215). -/
def jsOrOpt (a b : Option Nat) : Option Nat :=
  match a with
  | some t => some t
  | none => b

/-- JavaScript `a || b` on an optional page number and a default:
`0` is falsy (script.js line 166). -/
def jsOrNat (a : Option Nat) (b : Nat) : Nat :=
  match a with
  | some n => if n = 0 then b else n
  | none => b

/-- JavaScript `a || null` on an optional page count: `0` is falsy
(script.js line 167). -/
def jsOrNull (a : Option Nat) : Option Nat :=
  match a with
  | some n => if n = 0 then none else some n
  | none => none

/-- The mutable top-level state of script.js (lines 3-11) that the
page-load / polling core reads or writes.  The DOM handles and the
timer bookkeeping are outside the embedding. -/
structure AppState where
  currentPage : Nat
  maxPages : Option Nat
  autoRefresh : Bool
  newestTimestamp : Option Nat
  allScripts : List Script
  filteredScripts : List Script
  searchQuery : String
deriving DecidableEq

/-- `startsWith` on character lists, the building block of the
JavaScript `String.includes` used by the search filter. -/
def listStartsWith : List Char → List Char → Bool
  | _, [] => true
  | [], _ :: _ => false
  | a :: as, b :: bs => a == b && listStartsWith as bs

/-- Substring containment on character lists (JavaScript
`hay.includes(needle)`). -/
def listContainsSub : List Char → List Char → Bool
  | [], needle => needle.isEmpty
  | h :: t, needle => listStartsWith (h :: t) needle || listContainsSub t needle

/-- JavaScript `hay.includes(needle)` on strings. -/
def strIncludes (hay needle : String) : Bool :=
  listContainsSub hay.toList needle.toList

/-- The per-item test of `applySearchFilter` (script.js lines 238-243):
the lowercased query is matched against title, description, creator
and user name, each defaulted to the empty string and lowercased. -/
def matchesQuery (query : String) (sc : Script) : Bool :=
  strIncludes (sc.title.getD "").toLower query ||
  strIncludes (sc.description.getD "").toLower query ||
  strIncludes (sc.creator.getD "").toLower query ||
  strIncludes (match sc.user with
               | some u => (u.username.getD "").toLower
               | none => String.toLower "") query

/-- The filtered view computed by `applySearchFilter`
(script.js lines 233-247): a blank query copies the collection,
otherwise the collection is filtered by `matchesQuery` against the
lowercased query. -/
def computeFilter (searchQuery : String) (scripts : List Script) : List Script :=
  if searchQuery.trim = "" then scripts
  else scripts.filter (fun sc => matchesQuery searchQuery.toLower sc)

/-- `applySearchFilter` (script.js lines 233-247) as a state update:
recompute `filteredScripts` from the query and the collection (the
render call it ends with is DOM-only). -/
def applySearchFilter (s : AppState) : AppState :=
  { s with filteredScripts := computeFilter s.searchQuery s.allScripts }

/-- The accumulation part of the Detector walk (script.js lines
195-208) once a watermark `w` is set: accumulate items while the
effective timestamp is truthy and strictly greater than `w`; the first
item failing that test stops the walk. -/
def pollScanLoop (w : Nat) : List Script → List Script
  | [] => []
  | sc :: rest =>
    match effTs sc with
    | some t => if w < t then sc :: pollScanLoop w rest else []
    | none => []

/-- The full Detector walk (script.js lines 193-208): returns the
accumulated `newItems` and the watermark as left by the loop.  With no
watermark set, the first iteration adopts the first item's effective
timestamp and breaks (bootstrap); with a watermark set, the loop never
reassigns it and accumulates per `pollScanLoop`. -/
def pollScan (wm : Option Nat) (items : List Script) : List Script × Option Nat :=
  match items with
  | [] => ([], wm)
  | first :: rest =>
    match wm with
    | none => ([], effTs first)
    | some w => (pollScanLoop w (first :: rest), some w)

/-- `pollForNewScripts` (script.js lines 185-230) acting on a state,
given the Page Result the `fetchScripts(1)` call resolved with.
Returns the new state and the count reported to `showNewCount`
(0 when the merge branch is not taken).  The `setTimeout` auto-clear
and the render calls are DOM/timer effects outside the embedding. -/
def pollForNewScripts (s : AppState) (data : PageResult) : AppState × Nat :=
  if s.autoRefresh = false then (s, 0)
  else
    match data.scripts with
    | [] => (s, 0)
    | first :: rest =>
      let scanned := pollScan s.newestTimestamp (first :: rest)
      let newItems := scanned.1
      if 0 < newItems.length then
        let merged := newItems.reverse ++ s.allScripts
        ({ s with
            allScripts := merged,
            newestTimestamp := jsOrOpt (effTs first) scanned.2,
            filteredScripts := computeFilter s.searchQuery merged },
         newItems.length)
      else
        ({ s with newestTimestamp := scanned.2 }, 0)

/-- `loadPage` (script.js lines 151-183) acting on a state, given the
requested page number and the Page Result the `fetchScripts(page)`
call resolved with.  The grid clearing, loading-state toggling and
`updatePageStatus` are DOM effects outside the embedding. -/
def loadPage (s : AppState) (page : Nat) (data : PageResult) : AppState :=
  let s1 := applySearchFilter { s with allScripts := data.scripts }
  let s2 := { s1 with
                currentPage := jsOrNat data.info.currentPage page,
                maxPages := jsOrNull data.info.maxPages }
  match data.scripts with
  | [] => s2
  | first :: _ =>
    { s2 with newestTimestamp := jsOrOpt (effTs first) s2.newestTimestamp }

/-- Timestamp-descending order of a list of items: every adjacent pair
has truthy timestamps in (weakly) descending order. -/
def tsDesc : List Script → Bool
  | [] => true
  | [_] => true
  | a :: b :: rest =>
    (match effTs a, effTs b with
     | some ta, some tb => tb ≤ ta
     | _, _ => false) && tsDesc (b :: rest)

/-- Every item of the list has a truthy timestamp at most `w`. -/
def allTsLE (w : Nat) : List Script → Bool
  | [] => true
  | sc :: rest =>
    (match effTs sc with
     | some t => t ≤ w
     | none => false) && allTsLE w rest

/-- A sample item carrying only an effective timestamp (all
presentational fields absent), for concrete instantiations. -/
def mkScript (ts : Option Nat) : Script :=
  ⟨none, none, none, none, none, ts, none, none, none, none⟩

/-- A sample state: watermark 3, collection holding items with
timestamps 3 and 2, auto-refresh on, blank query. -/
def sampleState : AppState :=
  { currentPage := 1, maxPages := none, autoRefresh := true,
    newestTimestamp := some 3,
    allScripts := [mkScript (some 3), mkScript (some 2)],
    filteredScripts := [mkScript (some 3), mkScript (some 2)],
    searchQuery := "" }

/-- A sample fetched first page with items timestamped 5, 4, 3
(descending). -/
def samplePage : PageResult :=
  ⟨[mkScript (some 5), mkScript (some 4), mkScript (some 3)], ⟨none, none⟩⟩

/-- `sampleState` with no watermark set. -/
def sampleNoWm : AppState :=
  { sampleState with newestTimestamp := none }

/-- `sampleState` with auto-refresh off. -/
def sampleOff : AppState :=
  { sampleState with autoRefresh := false }

/-- A sample state with watermark 4 and collection timestamps 4, 2. -/
def sampleState2 : AppState :=
  { sampleState with
      newestTimestamp := some 4,
      allScripts := [mkScript (some 4), mkScript (some 2)],
      filteredScripts := [mkScript (some 4), mkScript (some 2)] }

/-- A sample fetched page with items timestamped 5, 4 (descending). -/
def samplePage2 : PageResult :=
  ⟨[mkScript (some 5), mkScript (some 4)], ⟨none, none⟩⟩

/-- Claim C9: when the auto-refresh flag is off, a poll tick is a
complete no-op: the state (collection, filtered view, watermark) is
returned unchanged with count 0, and the result does not depend on any
fetched data (modelling that no fetch is issued). -/
theorem poll_noop_when_autorefresh_off (s : AppState) (d1 d2 : PageResult)
    (h : s.autoRefresh = false) :
    pollForNewScripts s d1 = (s, 0) ∧
    pollForNewScripts s d1 = pollForNewScripts s d2 := by
  simp [pollForNewScripts, h]

/-- Witness for C9 at a concrete state with auto-refresh off. -/
theorem poll_noop_when_autorefresh_off_witness :
    pollForNewScripts sampleOff samplePage = (sampleOff, 0) ∧
    pollForNewScripts sampleOff samplePage = pollForNewScripts sampleOff emptyPage :=
  poll_noop_when_autorefresh_off sampleOff samplePage emptyPage rfl

/-- Claim C10: when `loadPage` receives an empty Page Result (failure
collapsed to empty, or a genuinely empty page), the Collection is
replaced wholesale by the empty sequence while the watermark keeps its
prior value. -/
theorem loadPage_empty_replaces_collection (s : AppState) (page : Nat)
    (d : PageResult) (h : d.scripts = []) :
    (loadPage s page d).allScripts = [] ∧
    (loadPage s page d).newestTimestamp = s.newestTimestamp := by
  obtain ⟨scripts, info⟩ := d
  simp only at h
  subst h
  simp [loadPage, applySearchFilter, computeFilter]

/-- Witness for C10: loading an empty page over a populated state. -/
theorem loadPage_empty_replaces_collection_witness :
    (loadPage sampleState 2 emptyPage).allScripts = [] ∧
    (loadPage sampleState 2 emptyPage).newestTimestamp = sampleState.newestTimestamp :=
  loadPage_empty_replaces_collection sampleState 2 emptyPage rfl

/-- Claim C3: for every non-empty fetched page, if no watermark is set
when `pollForNewScripts` runs, it adopts the first item's (effective)
timestamp as the watermark, accumulates zero new items, and leaves the
Collection (and everything else in the state) unchanged; the items
after the first are never inspected (the result does not depend on
them). -/
theorem poll_bootstrap (s : AppState) (info : Info) (first : Script)
    (rest : List Script)
    (hauto : s.autoRefresh = true) (hwm : s.newestTimestamp = none) :
    pollForNewScripts s ⟨first :: rest, info⟩ =
      ({ s with newestTimestamp := effTs first }, 0) := by
  simp [pollForNewScripts, hauto, pollScan, hwm]

/-- Witness for C3 at a concrete watermark-less state. -/
theorem poll_bootstrap_witness :
    pollForNewScripts sampleNoWm ⟨mkScript (some 5) :: [mkScript (some 4)], ⟨none, none⟩⟩ =
      ({ sampleNoWm with newestTimestamp := effTs (mkScript (some 5)) }, 0) :=
  poll_bootstrap sampleNoWm ⟨none, none⟩ (mkScript (some 5)) [mkScript (some 4)] rfl rfl

/-- Counterexample to claim C6 as stated: a genuinely empty page whose
payload carries pagination metadata is returned with that metadata, so
its return value differs from the uniform failure value `emptyPage` —
the caller CAN distinguish the two by the `info` component (the item
sequences are both empty). -/
theorem fetch_empty_page_distinguishable_cex :
    fetchScripts (.response true (.parsed (some ⟨some [], ⟨some 1, none⟩⟩))) ≠ emptyPage ∧
    (fetchScripts (.response true (.parsed (some ⟨some [], ⟨some 1, none⟩⟩)))).scripts = [] := by
  exact ⟨by decide, rfl⟩

/-- Claim C6 (amended): on any transport failure, non-success HTTP
status, unparseable body, nullish payload, or payload missing the item
list, `fetchScripts` returns the empty Page Result (and, being a total
function, never throws); a genuinely empty page yields the same empty
item sequence, so the item sequence alone cannot distinguish failure
from emptiness — though the metadata of an empty page is passed
through. -/
theorem fetch_failures_empty :
    fetchScripts .transportError = emptyPage ∧
    (∀ body, fetchScripts (.response false body) = emptyPage) ∧
    fetchScripts (.response true .invalidJson) = emptyPage ∧
    fetchScripts (.response true (.parsed none)) = emptyPage ∧
    (∀ i, fetchScripts (.response true (.parsed (some ⟨none, i⟩))) = emptyPage) ∧
    (∀ i, (fetchScripts (.response true (.parsed (some ⟨some [], i⟩)))).scripts = []) :=
  ⟨rfl, fun _ => rfl, rfl, rfl, fun _ => rfl, fun _ => rfl⟩

/-- Claim C4: for a fetched page `[a, b, c]` with effective timestamps
`t5 > t4 > t3` (descending) and current watermark `t3`, the Detector
accumulates `a` and `b`, reverses them, and prepends `[b, a]` (oldest
new item first) to the front of the Collection, leaving the rest of
the Collection after them; the reported count is 2 and the watermark
advances to `t5`. -/
theorem poll_merge_ordering (s : AppState) (info : Info) (a b c : Script)
    (t3 t4 t5 : Nat)
    (hauto : s.autoRefresh = true) (hwm : s.newestTimestamp = some t3)
    (ha : effTs a = some t5) (hb : effTs b = some t4) (hc : effTs c = some t3)
    (h34 : t3 < t4) (h45 : t4 < t5) :
    pollForNewScripts s ⟨[a, b, c], info⟩ =
      ({ s with
          allScripts := b :: a :: s.allScripts,
          newestTimestamp := some t5,
          filteredScripts := computeFilter s.searchQuery (b :: a :: s.allScripts) }, 2) := by
  have h35 : t3 < t5 := lt_trans h34 h45
  simp [pollForNewScripts, hauto, pollScan, hwm, pollScanLoop, ha, hb, hc,
        h34, h35, lt_irrefl, jsOrOpt]

/-- Witness for C4 at concrete timestamps 5, 4, 3 with watermark 3. -/
theorem poll_merge_ordering_witness :
    pollForNewScripts sampleState ⟨[mkScript (some 5), mkScript (some 4), mkScript (some 3)], ⟨none, none⟩⟩ =
      ({ sampleState with
          allScripts := mkScript (some 4) :: mkScript (some 5) :: sampleState.allScripts,
          newestTimestamp := some 5,
          filteredScripts := computeFilter sampleState.searchQuery
            (mkScript (some 4) :: mkScript (some 5) :: sampleState.allScripts) }, 2) :=
  poll_merge_ordering sampleState ⟨none, none⟩
    (mkScript (some 5)) (mkScript (some 4)) (mkScript (some 3)) 3 4 5
    rfl rfl rfl rfl rfl (by decide) (by decide)

/-- Claim C5: the Detector scan stops at the first item whose
timestamp is not strictly greater than the watermark, and no item
after that position is inspected or accumulated: for a page
`a :: b :: rest` where `a` is strictly newer than the watermark and
`b` is not, exactly `a` is reported new — the result is the same for
every `rest`, even one containing anomalously newer items. -/
theorem poll_early_termination (s : AppState) (info : Info) (a b : Script)
    (rest : List Script) (w ta : Nat)
    (hauto : s.autoRefresh = true) (hwm : s.newestTimestamp = some w)
    (ha : effTs a = some ta) (hgt : w < ta)
    (hb : ∀ tb, effTs b = some tb → tb ≤ w) :
    pollForNewScripts s ⟨a :: b :: rest, info⟩ =
      ({ s with
          allScripts := a :: s.allScripts,
          newestTimestamp := some ta,
          filteredScripts := computeFilter s.searchQuery (a :: s.allScripts) }, 1) := by
  cases hEb : effTs b with
  | none =>
    simp [pollForNewScripts, hauto, pollScan, hwm, pollScanLoop, ha, hgt, hEb, jsOrOpt]
  | some tb =>
    have hnb : ¬ w < tb := not_lt_of_ge (hb tb hEb)
    simp [pollForNewScripts, hauto, pollScan, hwm, pollScanLoop, ha, hgt, hEb, hnb, jsOrOpt]

/-- Witness for C5: page `[5, 4, 9]` with watermark 4 — item 9 sits
behind the terminating item 4 and is never accumulated. -/
theorem poll_early_termination_witness :
    pollForNewScripts sampleState2 ⟨mkScript (some 5) :: mkScript (some 4) :: [mkScript (some 9)], ⟨none, none⟩⟩ =
      ({ sampleState2 with
          allScripts := mkScript (some 5) :: sampleState2.allScripts,
          newestTimestamp := some 5,
          filteredScripts := computeFilter sampleState2.searchQuery
            (mkScript (some 5) :: sampleState2.allScripts) }, 1) :=
  poll_early_termination sampleState2 ⟨none, none⟩
    (mkScript (some 5)) (mkScript (some 4)) [mkScript (some 9)] 4 5
    rfl rfl rfl (by decide)
    (fun tb h => by
      injection h with h2
      omega)

/-- Unfolding lemma: a poll against a non-empty page, with auto-refresh
on and a watermark set, either merges the reversed accumulated batch
(count its length, watermark from the fetched top item) or, when
nothing is accumulated, leaves the state unchanged apart from
rewriting the watermark with its own value. -/
theorem poll_eq_of_wm_set (s : AppState) (info : Info) (first : Script)
    (rest : List Script) (w : Nat)
    (hauto : s.autoRefresh = true) (hwm : s.newestTimestamp = some w) :
    pollForNewScripts s ⟨first :: rest, info⟩ =
      (if 0 < (pollScanLoop w (first :: rest)).length then
        ({ s with
            allScripts := (pollScanLoop w (first :: rest)).reverse ++ s.allScripts,
            newestTimestamp := jsOrOpt (effTs first) (some w),
            filteredScripts := computeFilter s.searchQuery
              ((pollScanLoop w (first :: rest)).reverse ++ s.allScripts) },
         (pollScanLoop w (first :: rest)).length)
      else ({ s with newestTimestamp := some w }, 0)) := by
  simp [pollForNewScripts, hauto, pollScan, hwm]

/-- Inversion: a non-empty accumulated batch starts with the page's
first item, which has a truthy timestamp strictly above the
watermark. -/
theorem pollScanLoop_cons_inv (w : Nat) (first : Script) (rest : List Script)
    (x : Script) (xs : List Script)
    (h : pollScanLoop w (first :: rest) = x :: xs) :
    ∃ t, effTs first = some t ∧ w < t ∧ x = first ∧ xs = pollScanLoop w rest := by
  cases hts : effTs first with
  | none => simp [pollScanLoop, hts] at h
  | some t =>
    by_cases hwt : w < t
    · simp only [pollScanLoop, hts, if_pos hwt, List.cons.injEq] at h
      exact ⟨t, rfl, hwt, h.1.symm, h.2.symm⟩
    · simp [pollScanLoop, hts, hwt] at h

/-- Items accumulated by the walk come from the walked list. -/
theorem mem_of_mem_pollScanLoop (w : Nat) (x : Script) :
    ∀ l : List Script, x ∈ pollScanLoop w l → x ∈ l := by
  intro l
  induction l with
  | nil => intro hx; simp [pollScanLoop] at hx
  | cons a l2 ih =>
    intro hx
    cases h : effTs a with
    | none => simp [pollScanLoop, h] at hx
    | some t =>
      by_cases hwt : w < t
      · simp only [pollScanLoop, h, if_pos hwt, List.mem_cons] at hx
        rcases hx with h1 | h2
        · exact h1 ▸ List.mem_cons_self a l2
        · exact List.mem_cons_of_mem a (ih h2)
      · simp [pollScanLoop, h, hwt] at hx

/-- A walk over a list containing an item with a falsy timestamp never
passes that item: the part of the list from it onward is invisible. -/
theorem pollScanLoop_append_of_none (w : Nat) (bad : Script)
    (hbad : effTs bad = none) (pre rest : List Script) :
    pollScanLoop w (pre ++ bad :: rest) = pollScanLoop w pre := by
  induction pre with
  | nil => simp [pollScanLoop, hbad]
  | cons a pre2 ih =>
    cases h : effTs a with
    | none => simp [pollScanLoop, h]
    | some t => simp [pollScanLoop, h, ih]

/-- Claim C8: for every fetched page and every set watermark, an item
whose effective timestamp is falsy triggers the scan-termination
branch: the poll behaves exactly as if the page ended just before that
item — the merged batch and the reported count are those of the items
in front of it (all drawn from that front part), so neither the falsy
item nor anything after it is ever accumulated as new. -/
theorem poll_missing_timestamp_terminates (s : AppState) (info : Info)
    (pre rest : List Script) (bad : Script) (w : Nat)
    (hauto : s.autoRefresh = true) (hwm : s.newestTimestamp = some w)
    (hbad : effTs bad = none) :
    (pollForNewScripts s ⟨pre ++ bad :: rest, info⟩).1.allScripts =
        (pollScanLoop w pre).reverse ++ s.allScripts ∧
    (pollForNewScripts s ⟨pre ++ bad :: rest, info⟩).2 = (pollScanLoop w pre).length ∧
    (∀ x ∈ pollScanLoop w pre, x ∈ pre) := by
  refine ⟨?_, ?_, fun x hx => mem_of_mem_pollScanLoop w x pre hx⟩ <;>
  · cases pre with
    | nil =>
      simp [pollForNewScripts, hauto, pollScan, hwm, pollScanLoop, hbad]
    | cons p pre2 =>
      have hL : pollScanLoop w (p :: (pre2 ++ bad :: rest)) = pollScanLoop w (p :: pre2) := by
        rw [← List.cons_append]
        exact pollScanLoop_append_of_none w bad hbad (p :: pre2) rest
      have h1 := poll_eq_of_wm_set s info p (pre2 ++ bad :: rest) w hauto hwm
      rw [List.cons_append, h1, hL]
      by_cases h0 : 0 < (pollScanLoop w (p :: pre2)).length
      · simp [h0]
      · have hnil : pollScanLoop w (p :: pre2) = [] :=
          List.length_eq_zero.mp (Nat.eq_zero_of_not_pos h0)
        simp [h0, hnil]

/-- Witness for C8: watermark 4, page `[9, <no timestamp>, 7]` — only
the item timestamped 9 is merged; the falsy item and the 7 behind it
are never accumulated. -/
theorem poll_missing_timestamp_terminates_witness :
    (pollForNewScripts sampleState2 ⟨[mkScript (some 9)] ++ mkScript none :: [mkScript (some 7)], ⟨none, none⟩⟩).1.allScripts =
        (pollScanLoop 4 [mkScript (some 9)]).reverse ++ sampleState2.allScripts ∧
    (pollForNewScripts sampleState2 ⟨[mkScript (some 9)] ++ mkScript none :: [mkScript (some 7)], ⟨none, none⟩⟩).2 =
        (pollScanLoop 4 [mkScript (some 9)]).length ∧
    (∀ x ∈ pollScanLoop 4 [mkScript (some 9)], x ∈ [mkScript (some 9)]) :=
  poll_missing_timestamp_terminates sampleState2 ⟨none, none⟩
    [mkScript (some 9)] [mkScript (some 7)] (mkScript none) 4 rfl rfl rfl

/-- Counterexample to claim C2 as stated: a page load is a "later
operation" that CAN move the watermark strictly backward — loading a
page whose top item carries timestamp 1 over a state whose watermark
is 3 overwrites the watermark with 1. -/
theorem loadPage_moves_watermark_back_cex :
    sampleState.newestTimestamp = some 3 ∧
    (loadPage sampleState 2 ⟨[mkScript (some 1)], ⟨some 2, some 9⟩⟩).newestTimestamp = some 1 ∧
    (1 : Nat) < 3 :=
  ⟨rfl, rfl, by decide⟩

/-- Claim C2 (amended): with a watermark set, a Detector cycle never
moves it backward — it stays a `some` value at least as large; a cycle
that reports zero new items leaves it unchanged; and a cycle that
reports N>0 new items sets it to the effective timestamp of the top
item of that fetch.  (A page load, by contrast, overwrites the
watermark from the loaded page's top item and can move it backward, as
the counterexample shows.) -/
theorem watermark_poll_monotone (s : AppState) (d : PageResult) (w : Nat)
    (hwm : s.newestTimestamp = some w) :
    (∃ w2, ((pollForNewScripts s d).1).newestTimestamp = some w2 ∧ w ≤ w2) ∧
    ((pollForNewScripts s d).2 = 0 →
      ((pollForNewScripts s d).1).newestTimestamp = some w) ∧
    (∀ first rest, d.scripts = first :: rest → 0 < (pollForNewScripts s d).2 →
      ((pollForNewScripts s d).1).newestTimestamp = effTs first) := by
  obtain ⟨scripts, info⟩ := d
  cases hauto : s.autoRefresh with
  | false =>
    refine ⟨⟨w, ?_, le_refl w⟩, ?_, ?_⟩ <;> simp [pollForNewScripts, hauto, hwm]
  | true =>
    cases scripts with
    | nil =>
      refine ⟨⟨w, ?_, le_refl w⟩, ?_, ?_⟩ <;> simp [pollForNewScripts, hauto, hwm]
    | cons first rest =>
      have h1 := poll_eq_of_wm_set s info first rest w hauto hwm
      cases hN : pollScanLoop w (first :: rest) with
      | nil =>
        have h2 : pollForNewScripts s ⟨first :: rest, info⟩ =
            ({ s with newestTimestamp := some w }, 0) := by
          rw [h1, hN]; simp
        rw [h2]
        refine ⟨⟨w, rfl, le_refl w⟩, fun _ => rfl, ?_⟩
        intro f r heq hpos
        simp at hpos
      | cons x xs =>
        obtain ⟨t, ht, hwt, hx, hxs⟩ := pollScanLoop_cons_inv w first rest x xs hN
        have h2 : pollForNewScripts s ⟨first :: rest, info⟩ =
            ({ s with
                allScripts := (x :: xs).reverse ++ s.allScripts,
                newestTimestamp := some t,
                filteredScripts := computeFilter s.searchQuery
                  ((x :: xs).reverse ++ s.allScripts) },
             (x :: xs).length) := by
          rw [h1, hN]; simp [jsOrOpt, ht]
        rw [h2]
        refine ⟨⟨t, rfl, le_of_lt hwt⟩, ?_, ?_⟩
        · intro h0; simp at h0
        · intro f r heq hpos
          have heq2 : first :: rest = f :: r := heq
          injection heq2 with hf hr
          rw [← hf, ht]

/-- Witness for C2 (amended) at watermark 3 against the page
timestamped 5, 4, 3. -/
theorem watermark_poll_monotone_witness :
    (∃ w2, ((pollForNewScripts sampleState samplePage).1).newestTimestamp = some w2 ∧ 3 ≤ w2) ∧
    ((pollForNewScripts sampleState samplePage).2 = 0 →
      ((pollForNewScripts sampleState samplePage).1).newestTimestamp = some 3) ∧
    (∀ first rest, samplePage.scripts = first :: rest →
      0 < (pollForNewScripts sampleState samplePage).2 →
      ((pollForNewScripts sampleState samplePage).1).newestTimestamp = effTs first) :=
  watermark_poll_monotone sampleState samplePage 3 rfl

/-- Claim C7: polling is idempotent — running the Detector a second
time against the same unchanged first-page payload reports zero new
items and leaves the whole state (Collection, filtered view,
watermark) exactly as the first run left it. -/
theorem poll_idempotent (s : AppState) (d : PageResult) :
    pollForNewScripts (pollForNewScripts s d).1 d = ((pollForNewScripts s d).1, 0) := by
  obtain ⟨scripts, info⟩ := d
  cases hauto : s.autoRefresh with
  | false => simp [pollForNewScripts, hauto]
  | true =>
    cases scripts with
    | nil => simp [pollForNewScripts, hauto]
    | cons first rest =>
      cases hwm : s.newestTimestamp with
      | none =>
        have h1 : pollForNewScripts s ⟨first :: rest, info⟩ =
            ({ s with newestTimestamp := effTs first }, 0) := by
          simp [pollForNewScripts, hauto, pollScan, hwm]
        rw [h1]
        cases hts : effTs first with
        | none => simp [pollForNewScripts, hauto, pollScan, hts]
        | some t => simp [pollForNewScripts, hauto, pollScan, hts, pollScanLoop]
      | some w =>
        have h1 := poll_eq_of_wm_set s info first rest w hauto hwm
        cases hN : pollScanLoop w (first :: rest) with
        | nil =>
          have h2 : pollForNewScripts s ⟨first :: rest, info⟩ =
              ({ s with newestTimestamp := some w }, 0) := by
            rw [h1, hN]; simp
          rw [h2]
          simp [pollForNewScripts, hauto, pollScan, hN]
        | cons x xs =>
          obtain ⟨t, ht, hwt, hx, hxs⟩ := pollScanLoop_cons_inv w first rest x xs hN
          have h2 : pollForNewScripts s ⟨first :: rest, info⟩ =
              ({ s with
                  allScripts := (x :: xs).reverse ++ s.allScripts,
                  newestTimestamp := some t,
                  filteredScripts := computeFilter s.searchQuery
                    ((x :: xs).reverse ++ s.allScripts) },
               (x :: xs).length) := by
            rw [h1, hN]; simp [jsOrOpt, ht]
          rw [h2]
          simp [pollForNewScripts, hauto, pollScan, pollScanLoop, ht]

/-- Prepending an item at least as new as a bound dominating a
descending list keeps the list descending. -/
theorem tsDesc_cons_of_le (a : Script) (t w : Nat) (l : List Script)
    (ha : effTs a = some t) (hw : w ≤ t)
    (hdesc : tsDesc l = true) (hle : allTsLE w l = true) :
    tsDesc (a :: l) = true := by
  cases l with
  | nil => simp [tsDesc]
  | cons b bs =>
    cases hb : effTs b with
    | none => simp [allTsLE, hb] at hle
    | some tb =>
      have htb : tb ≤ w := by
        simp [allTsLE, hb] at hle
        exact hle.1
      simp [tsDesc, ha, hb, hdesc]
      omega

/-- Counterexample to claim C1 as stated: with watermark 3, a
descending page timestamped 5, 4, 3 and a descending Collection
timestamped 3, 2, the Detector merge yields timestamps 4, 5, 3, 2 —
the reversed batch is prepended oldest-first, so the Collection is no
longer timestamp-descending. -/
theorem merge_breaks_descending_cex :
    tsDesc samplePage.scripts = true ∧
    tsDesc sampleState.allScripts = true ∧
    sampleState.newestTimestamp = some 3 ∧
    tsDesc ((pollForNewScripts sampleState samplePage).1.allScripts) = false :=
  ⟨rfl, rfl, rfl, rfl⟩

/-- Claim C1 (amended): a Detector merge preserves timestamp-descending
order of the Collection whenever it accumulates at most one new item
(given that every Collection timestamp is truthy and at most the
watermark); when two or more items are accumulated, the reversed batch
is prepended oldest-first and descending order is broken, as the
counterexample shows. -/
theorem merge_desc_of_single_new (s : AppState) (d : PageResult) (w : Nat)
    (hwm : s.newestTimestamp = some w)
    (hdesc : tsDesc s.allScripts = true)
    (hle : allTsLE w s.allScripts = true)
    (hcount : (pollForNewScripts s d).2 ≤ 1) :
    tsDesc ((pollForNewScripts s d).1.allScripts) = true := by
  obtain ⟨scripts, info⟩ := d
  cases hauto : s.autoRefresh with
  | false => simpa [pollForNewScripts, hauto] using hdesc
  | true =>
    cases scripts with
    | nil => simpa [pollForNewScripts, hauto] using hdesc
    | cons first rest =>
      have h1 := poll_eq_of_wm_set s info first rest w hauto hwm
      cases hN : pollScanLoop w (first :: rest) with
      | nil =>
        rw [h1, hN]
        simpa using hdesc
      | cons x xs =>
        obtain ⟨t, ht, hwt, hx, hxs⟩ := pollScanLoop_cons_inv w first rest x xs hN
        have hxs2 : xs = [] := by
          rw [h1, hN] at hcount
          simpa using hcount
        subst hxs2
        rw [hx] at hN
        rw [h1, hN]
        simpa using tsDesc_cons_of_le first t w s.allScripts ht (le_of_lt hwt) hdesc hle

/-- Witness for C1 (amended): watermark 4, page timestamped 5, 4 —
one new item, Collection stays descending. -/
theorem merge_desc_of_single_new_witness :
    tsDesc ((pollForNewScripts sampleState2 samplePage2).1.allScripts) = true :=
  merge_desc_of_single_new sampleState2 samplePage2 4 rfl rfl rfl (by decide)
